import Mathlib

/-!
Shallow embedding of danielvegamyhre/gpt-from-scratch (src/gpt.py, src/train.py)
and verification of its specification claims.

Numeric tensor entries are modelled as real numbers; the float value
negative infinity produced by masked_fill is modelled explicitly by the
type ScoreVal below, with exp extended by exp(-inf) = 0, which is the
IEEE semantics softmax relies on.  Randomness drawn from the engine
(multinomial sampling, randint offsets, dropout masks) is passed in as
explicit arguments.
-/

namespace GptSpec

/-- Constant NUM_LAYERS = 6 (gpt.py line 5). -/
def NUM_LAYERS : ℕ := 6

/-- Constant NUM_HEADS = 6 (gpt.py line 6). -/
def NUM_HEADS : ℕ := 6

/-- Constant SEQ_LEN = 256, maximum context length for one input (gpt.py line 7). -/
def SEQ_LEN : ℕ := 256

/-- Constant EMBED_SIZE = 384, embedding dimension size (gpt.py line 8). -/
def EMBED_SIZE : ℕ := 384

/-- Constant DROPOUT = 0.2 (gpt.py line 9), as a real number. -/
noncomputable def DROPOUT : ℝ := 1 / 5

/-- Constant EVAL_INTERVAL = 1000 (train.py line 18). -/
def EVAL_INTERVAL : ℕ := 1000

/-- Value of one attention-score entry after masked_fill: either a finite real
or the float negative infinity written by masked_fill (gpt.py line 42). -/
inductive ScoreVal where
  | negInf : ScoreVal
  | fin : ℝ → ScoreVal

/-- Exponential extended to the masked value, following the float semantics
exp(-inf) = 0 that F.softmax relies on. -/
noncomputable def expScore : ScoreVal → ℝ
  | ScoreVal.negInf => 0
  | ScoreVal.fin x => Real.exp x

/-- Parameters of one attention head (gpt.py lines 30-32): the weight matrices of
key, query and value, each nn.Linear(EMBED_SIZE, head_size, bias=False),
indexed (out_feature, in_feature) as in torch. -/
structure HeadParams (headSize : ℕ) where
  key : Fin headSize → Fin EMBED_SIZE → ℝ
  query : Fin headSize → Fin EMBED_SIZE → ℝ
  value : Fin headSize → Fin EMBED_SIZE → ℝ

/-- Application of nn.Linear(inDim, outDim, bias=False) with weight W to one
input vector: y o = sum over i of W o i * x i. -/
noncomputable def linearNoBias (inDim outDim : ℕ) (W : Fin outDim → Fin inDim → ℝ)
    (x : Fin inDim → ℝ) : Fin outDim → ℝ :=
  fun o => ∑ i, W o i * x i

/-- The registered buffer torch.tril(torch.ones(SEQ_LEN, SEQ_LEN)) (gpt.py line 33):
entry (i, j) is 1 on and below the diagonal (j less or equal i), 0 above it. -/
def tril : Fin SEQ_LEN → Fin SEQ_LEN → ℝ :=
  fun i j => if (j : ℕ) ≤ (i : ℕ) then 1 else 0

/-- Raw attention scores (gpt.py line 41):
wei = q @ k.transpose(-2, -1) / k.shape[-1] ** 0.5, one batch row. -/
noncomputable def rawScores (headSize T : ℕ) (q k : Fin T → Fin headSize → ℝ) :
    Fin T → Fin T → ℝ :=
  fun i j => (∑ c, q i c * k j c) / (headSize : ℝ) ^ ((1 : ℝ) / 2)

/-- Masking step (gpt.py line 42):
wei = wei.masked_fill(self.tril[:T, :T] == 0, float('-inf')), for T ≤ SEQ_LEN. -/
noncomputable def maskedScores (T : ℕ) (hT : T ≤ SEQ_LEN) (wei : Fin T → Fin T → ℝ) :
    Fin T → Fin T → ScoreVal :=
  fun i j =>
    if tril (Fin.castLE hT i) (Fin.castLE hT j) = 0 then ScoreVal.negInf
    else ScoreVal.fin (wei i j)

/-- Softmax along the key axis (gpt.py line 43): wei = F.softmax(wei, dim=-1),
on rows that may hold negative-infinity entries. -/
noncomputable def softmaxMasked (T : ℕ) (w : Fin T → Fin T → ScoreVal) :
    Fin T → Fin T → ℝ :=
  fun i j => expScore (w i j) / ∑ m, expScore (w i m)

/-- The softmax-normalized causal attention-weight matrix computed by Head.forward
(gpt.py lines 36-43) on one batch row of an input of shape (B, T, EMBED_SIZE). -/
noncomputable def headAttnWeights (headSize T : ℕ) (hT : T ≤ SEQ_LEN)
    (p : HeadParams headSize) (x : Fin T → Fin EMBED_SIZE → ℝ) : Fin T → Fin T → ℝ :=
  softmaxMasked T (maskedScores T hT (rawScores headSize T
    (fun t => linearNoBias EMBED_SIZE headSize p.query (x t))
    (fun t => linearNoBias EMBED_SIZE headSize p.key (x t))))

/-- Head parameters that are identically zero, used as a concrete instance. -/
def headParamsZero : HeadParams 1 :=
  { key := fun _ _ => 0, query := fun _ _ => 0, value := fun _ _ => 0 }

/-- Functional semantics of nn.Dropout(p) (gpt.py lines 34, 44): when the owning
module is in training mode, each entry is kept with probability 1 - p (the drawn
Bernoulli mask is the argument keep) and scaled by 1 / (1 - p), dropped entries
become 0; in evaluation mode the operator is the identity. -/
noncomputable def dropoutFn (ι : Type) (training : Bool) (p : ℝ) (keep : ι → Bool)
    (x : ι → ℝ) : ι → ℝ :=
  if training then (fun i => if keep i then x i / (1 - p) else 0) else x

/-- nn.Module construction leaves the module in training mode; GPT(...) in main
(train.py line 129) therefore starts with training = true. -/
def nnModuleDefaultTraining : Bool := true

/-- Training flag in force during the generation-only path of main
(train.py lines 142-148): model.eval() is never called there before
m.generate(...), so the flag is still the construction-time value. -/
def mainGenerateTraining : Bool := nnModuleDefaultTraining

/-- Context cropping idx[:, -SEQ_LEN:] on one batch row (gpt.py line 122). -/
def cropRow (row : List ℕ) : List ℕ := row.drop (row.length - SEQ_LEN)

/-- One iteration of the loop body of GPT.generate (gpt.py lines 120-132): crop
each row to the last SEQ_LEN tokens, draw one token per batch row (samp b ctx
abstracts forward with no targets, taking logits[:, -1, :], F.softmax and the
torch.multinomial draw for row b), and append it via torch.cat along dim 1. -/
def generateStep (samp : ℕ → List ℕ → ℕ) (idx : List (List ℕ)) : List (List ℕ) :=
  idx.mapIdx fun b row => row ++ [samp b (cropRow row)]

/-- GPT.generate (gpt.py lines 118-134) starting at iteration t, running the
remaining number of iterations; sample t b ctx is the token the engine draws at
iteration t for batch row b from cropped context ctx. -/
def generateFrom (sample : ℕ → ℕ → List ℕ → ℕ) (t : ℕ) (idx : List (List ℕ)) :
    ℕ → List (List ℕ)
  | 0 => idx
  | Nat.succ n => generateFrom sample (t + 1) (generateStep (sample t) idx) n

/-- GPT.generate(idx, max_new_tokens) (gpt.py lines 118-134). -/
def generate (sample : ℕ → ℕ → List ℕ → ℕ) (idx : List (List ℕ))
    (maxNewTokens : ℕ) : List (List ℕ) :=
  generateFrom sample 0 idx maxNewTokens

/-- A concrete sampler that always draws token 0, used for witnesses. -/
def sampleZero : ℕ → ℕ → List ℕ → ℕ := fun _ _ _ => 0

/-- The generation context torch.zeros((1, 1), dtype=torch.long) of main
(train.py line 145), as token rows. -/
def zeroContext : List (List ℕ) := [[0]]

/-- Token rows produced by the generation-only path of main (train.py lines
142-148).  The printed banner uses args.generate, but the call made is
generate(300), that is m.generate(idx=context, max_new_tokens=300): the
generateFlag argument is unused, exactly as in the source. -/
def mainGenerateOutput (sample : ℕ → ℕ → List ℕ → ℕ) (generateFlag : ℕ) :
    List (List ℕ) :=
  generate sample zeroContext 300

/-- Observable actions performed by main (train.py lines 119-167), in order. -/
inductive Event where
  | tokenize : Event
  | preprocess : Event
  | buildModel : Event
  | buildOptim : Event
  | loadCkpt : Event
  | raiseFileNotFound : Event
  | generateOut : Event
  | evalLoss : ℕ → Event
  | trainStep : ℕ → Event
  | saveCkpt : ℕ → Event
  deriving DecidableEq

/-- Command-line arguments of train.py (lines 169-179) that main branches on. -/
structure Args where
  loadCheckpoint : Option String
  generateFlag : Option ℕ
  epochs : ℕ
  checkpointInterval : ℕ

/-- Python truthiness of the optional integer flag args.generate: None and 0 are
falsy, any other integer is truthy. -/
def isTruthy : Option ℕ → Bool
  | none => false
  | some n => n != 0

/-- Events of one iteration of the training loop at epoch i (train.py lines
152-167): estimate_loss when i is a nonstarting multiple of EVAL_INTERVAL, one
train step, then save_checkpoint when (i != epoch and i % interval == 0) or
i == epochs - 1, mirroring the condition on line 166. -/
def epochEvents (e0 E interval i : ℕ) : List Event :=
  (if i ≠ e0 ∧ i % EVAL_INTERVAL = 0 then [Event.evalLoss i] else []) ++
  [Event.trainStep i] ++
  (if (i ≠ e0 ∧ i % interval = 0) ∨ i = E - 1 then [Event.saveCkpt i] else [])

/-- The training loop for i in range(e0, E) (train.py lines 152-167). -/
def trainingTrace (e0 E interval : ℕ) : List Event :=
  (List.range' e0 (E - e0)).flatMap (epochEvents e0 E interval)

/-- Continuation of main after the optional checkpoint load (train.py lines
142-167), with e0 the current epoch counter: the generation-only branch when
args.generate is truthy, otherwise the training loop. -/
def afterLoad (args : Args) (e0 : ℕ) : List Event :=
  if isTruthy args.generateFlag then [Event.generateOut]
  else trainingTrace e0 args.epochs args.checkpointInterval

/-- main (train.py lines 119-167) as the ordered sequence of events it performs:
tokenizer setup, data preprocessing, model construction, optimizer construction,
then the checkpoint-load branch (raising FileNotFoundError stops the trace),
then generation or training.  fileExists models os.path.isfile and ckptEpoch the
epoch stored in the loaded checkpoint. -/
def mainTrace (args : Args) (fileExists : String → Bool) (ckptEpoch : ℕ) :
    List Event :=
  [Event.tokenize, Event.preprocess, Event.buildModel, Event.buildOptim] ++
  match args.loadCheckpoint with
  | none => afterLoad args 0
  | some p =>
      if fileExists p then Event.loadCkpt :: afterLoad args ckptEpoch
      else [Event.raiseFileNotFound]

/-- Concrete arguments: a load-checkpoint path is supplied, no generation. -/
def argsLoadMissing : Args :=
  { loadCheckpoint := some "model.ckpt", generateFlag := none, epochs := 3,
    checkpointInterval := 1000 }

/-- Concrete arguments: generation-only invocation with generate flag 5. -/
def argsGen : Args :=
  { loadCheckpoint := none, generateFlag := some 5, epochs := 0,
    checkpointInterval := 1000 }

/-- Shape record of the modules built by Block.__init__ (gpt.py lines 63-72):
MultiHeadAttention(num_heads, head_size) with head_size = num_embd // num_heads,
whose heads are Head(head_size) and whose projection is
nn.Linear(num_heads * head_size, EMBED_SIZE) (gpt.py line 54). -/
structure BlockShape where
  numHeads : ℕ
  headSize : ℕ
  projInFeatures : ℕ
  projOutFeatures : ℕ
  deriving DecidableEq

/-- The configuration error the specification posits for an embedding width not
divisible by the head count. -/
inductive ConfigError where
  | notDivisible : ConfigError
  deriving DecidableEq

/-- Block.__init__ (gpt.py lines 63-72) together with
MultiHeadAttention.__init__ (gpt.py lines 50-55): head_size is the integer
division num_embd // num_heads and the modules are built; the source contains
no divisibility check and no raise statement, so construction always succeeds. -/
def blockInit (numEmbd numHeads : ℕ) : Except ConfigError BlockShape :=
  let headSize := numEmbd / numHeads
  Except.ok { numHeads := numHeads, headSize := headSize,
              projInFeatures := numHeads * headSize, projOutFeatures := EMBED_SIZE }

/-- The record written by save_checkpoint (train.py lines 70-75), with model
state, optimizer state and loss of abstract types M, O, L. -/
structure Checkpoint (M O L : Type) where
  epoch : ℕ
  model_state_dict : M
  optimizer_state_dict : O
  loss : L

/-- The file store torch.save and torch.load operate on: path to record. -/
def CkptStore (M O L : Type) : Type := String → Option (Checkpoint M O L)

/-- save_checkpoint(path, epoch, loss, model, optim) (train.py lines 68-75):
torch.save writes the four-field record wholesale at path. -/
def save_checkpoint (M O L : Type) (path : String) (epoch : ℕ) (loss : L)
    (modelState : M) (optimState : O) (store : CkptStore M O L) : CkptStore M O L :=
  fun q =>
    if q = path then
      some { epoch := epoch, model_state_dict := modelState,
             optimizer_state_dict := optimState, loss := loss }
    else store q

/-- load_checkpoint(path, model, optim) (train.py lines 77-84): torch.load reads
the record, load_state_dict replaces the model and optimizer states with the
stored ones, and (epoch, loss) is returned; the result collects the state the
program is in afterwards: (model state, optimizer state, epoch, loss). -/
def load_checkpoint (M O L : Type) (path : String) (store : CkptStore M O L) :
    Option (M × O × ℕ × L) :=
  (store path).map (fun c => (c.model_state_dict, c.optimizer_state_dict, c.epoch, c.loss))

/-- The engine state visible to GPT.generate: the model state of abstract type P
(embedding tables, every linear and normalization weight and bias, and the
registered tril buffer) plus the global RNG state, which torch.multinomial and
training-mode dropout advance. -/
structure TorchState (P : Type) where
  params : P
  rng : ℕ

/-- One iteration of GPT.generate (gpt.py lines 120-132) with the engine state
explicit.  Every tensor operation in the body (slicing idx[:, -SEQ_LEN:], the
forward call, indexing logits[:, -1, :], F.softmax, torch.multinomial,
torch.cat) returns a fresh tensor and only reads params; the draws consume
randomness, so only the rng component changes.  draw p r b ctx is the token
obtained for row b from parameters p and RNG state r. -/
def generateStepS (P : Type) (draw : P → ℕ → ℕ → List ℕ → ℕ) (st : TorchState P)
    (idx : List (List ℕ)) : List (List ℕ) × TorchState P :=
  (idx.mapIdx fun b row => row ++ [draw st.params st.rng b (cropRow row)],
   { params := st.params, rng := st.rng + 1 })

/-- GPT.generate (gpt.py lines 118-134) with explicit engine state: runs the
loop body the given number of times, threading the state. -/
def generateS (P : Type) (draw : P → ℕ → ℕ → List ℕ → ℕ) :
    ℕ → TorchState P → List (List ℕ) → List (List ℕ) × TorchState P
  | 0, st, idx => (idx, st)
  | Nat.succ n, st, idx =>
      generateS P draw n (generateStepS P draw st idx).2 (generateStepS P draw st idx).1

/-- The bound of torch.randint(len(data) - SEQ_LEN, (BATCH_SIZE,)) (train.py
line 48): each starting offset is drawn uniformly from [0, randintHigh L).
BATCH_SIZE is imported from gpt.py but never defined there; the batch size is
kept as a parameter. -/
def randintHigh (dataLen : ℕ) : ℕ := dataLen - SEQ_LEN

/-- The input window data[i:i+SEQ_LEN] (train.py line 49). -/
def inputWindow (data : List ℕ) (s : ℕ) : List ℕ := (data.drop s).take SEQ_LEN

/-- The target window data[i+1:i+1+SEQ_LEN] (train.py line 50). -/
def targetWindow (data : List ℕ) (s : ℕ) : List ℕ := (data.drop (s + 1)).take SEQ_LEN

/-- get_batch (train.py lines 46-52) applied to the drawn offsets ix: the pair
(inputs, targets) of stacked windows. -/
def get_batch (B : ℕ) (data : List ℕ) (ix : Fin B → ℕ) :
    (Fin B → List ℕ) × (Fin B → List ℕ) :=
  (fun b => inputWindow data (ix b), fun b => targetWindow data (ix b))

/-- C1: In Head.forward, for every input of shape (B, T, EMBED_SIZE) with
T ≤ SEQ_LEN, every future position (j > i) receives score negative infinity
from masked_fill, and the softmax-normalized attention weight assigned from
query position i to key position j is exactly zero: no position attends to a
future position. -/
theorem causal_mask_zero_future_weight (B headSize T : ℕ) (hT : T ≤ SEQ_LEN)
    (p : HeadParams headSize) (x : Fin B → Fin T → Fin EMBED_SIZE → ℝ)
    (b : Fin B) (i j : Fin T) (hij : (i : ℕ) < (j : ℕ)) :
    maskedScores T hT (rawScores headSize T
        (fun t => linearNoBias EMBED_SIZE headSize p.query (x b t))
        (fun t => linearNoBias EMBED_SIZE headSize p.key (x b t))) i j = ScoreVal.negInf ∧
    headAttnWeights headSize T hT p (x b) i j = 0 := by
  have hnot : ¬ ((j : ℕ) ≤ (i : ℕ)) := Nat.not_le.mpr hij
  have hmask : tril (Fin.castLE hT i) (Fin.castLE hT j) = 0 := by
    simp [tril, hnot]
  constructor
  · simp [maskedScores, hmask]
  · simp [headAttnWeights, softmaxMasked, maskedScores, hmask, expScore]

/-- Witness for C1 at B = 1, T = 2, head size 1, zero parameters and zero
input, query position 0, key position 1. -/
theorem causal_mask_zero_future_weight_witness :
    2 ≤ SEQ_LEN ∧ ((0 : Fin 2) : ℕ) < ((1 : Fin 2) : ℕ) ∧
    headAttnWeights 1 2 (by decide) headParamsZero (fun _ _ => 0) 0 1 = 0 :=
  ⟨by decide, by decide,
    (causal_mask_zero_future_weight 1 1 2 (by decide) headParamsZero
      (fun _ _ _ => 0) 0 0 1 (by decide)).2⟩

/-- C9 (evidence of the code bug): in the generation-only invocation path the
model is never switched out of training mode, so the dropout applied to the
attention-weight matrix is not a no-op there: with a Bernoulli mask that drops
the single entry, the weight 1 produced by softmax becomes 0 after dropout. -/
theorem dropout_active_in_generate_path :
    mainGenerateTraining = true ∧
    headAttnWeights 1 1 (by decide) headParamsZero (fun _ _ => 0) 0 0 = 1 ∧
    dropoutFn (Fin 1) mainGenerateTraining DROPOUT (fun _ => false)
      (headAttnWeights 1 1 (by decide) headParamsZero (fun _ _ => 0) 0) 0 = 0 ∧
    (1 : ℝ) ≠ 0 := by
  refine ⟨rfl, ?_, ?_, one_ne_zero⟩
  · simp [headAttnWeights, softmaxMasked, maskedScores, rawScores, linearNoBias,
      headParamsZero, tril, expScore, Real.exp_zero]
  · simp [dropoutFn, mainGenerateTraining, nnModuleDefaultTraining]

/-- C4 counterexample: at num_embd = 10, num_heads = 3 the embedding width is
not divisible by the head count, yet construction succeeds with no
configuration error: the source performs no divisibility check. -/
theorem block_init_indivisible_succeeds :
    10 % 3 ≠ 0 ∧
    blockInit 10 3 = Except.ok
      { numHeads := 3, headSize := 3, projInFeatures := 9, projOutFeatures := 384 } :=
  ⟨by decide, rfl⟩

/-- C4 amended: Block construction never fails for a positive head count;
head_size is the integer division num_embd // num_heads, the projection input
width is num_heads * head_size, and only under divisibility does that width
reconstitute the embedding width. -/
theorem block_init_always_succeeds (numEmbd numHeads : ℕ) (hpos : 0 < numHeads) :
    blockInit numEmbd numHeads = Except.ok
      { numHeads := numHeads, headSize := numEmbd / numHeads,
        projInFeatures := numHeads * (numEmbd / numHeads),
        projOutFeatures := EMBED_SIZE } ∧
    (numHeads ∣ numEmbd → numHeads * (numEmbd / numHeads) = numEmbd) :=
  ⟨rfl, fun hd => Nat.mul_div_cancel' hd⟩

/-- Witness for C4 amended at num_embd = 12, num_heads = 3. -/
theorem block_init_always_succeeds_witness :
    0 < 3 ∧
    (blockInit 12 3 = Except.ok
        { numHeads := 3, headSize := 4, projInFeatures := 12,
          projOutFeatures := EMBED_SIZE } ∧
      ((3 : ℕ) ∣ 12 → 3 * (12 / 3) = 12)) :=
  ⟨by decide, block_init_always_succeeds 12 3 (by decide)⟩

/-- C5 counterexample: with a supplied load-checkpoint path and no file there,
the trace of main still begins with tokenizer setup; the FileNotFoundError is
not surfaced before computation begins. -/
theorem checkpoint_error_after_computation :
    Event.raiseFileNotFound ∈ mainTrace argsLoadMissing (fun _ => false) 0 ∧
    (mainTrace argsLoadMissing (fun _ => false) 0).head? = some Event.tokenize ∧
    Event.tokenize ≠ Event.raiseFileNotFound := by
  decide

/-- C5 amended: if a load-checkpoint path is supplied and no file exists at it,
main raises FileNotFoundError after tokenizer setup, data preprocessing, model
construction and optimizer construction, but before any checkpoint load,
training step or generation. -/
theorem checkpoint_error_before_training (args : Args) (fileExists : String → Bool)
    (ckptEpoch : ℕ) (p : String) (h1 : args.loadCheckpoint = some p)
    (h2 : fileExists p = false) :
    mainTrace args fileExists ckptEpoch =
      [Event.tokenize, Event.preprocess, Event.buildModel, Event.buildOptim,
       Event.raiseFileNotFound] := by
  simp [mainTrace, h1, h2]

/-- Witness for C5 amended at concrete arguments with a missing file. -/
theorem checkpoint_error_before_training_witness :
    argsLoadMissing.loadCheckpoint = some "model.ckpt" ∧
    (fun _ : String => false) "model.ckpt" = false ∧
    mainTrace argsLoadMissing (fun _ => false) 0 =
      [Event.tokenize, Event.preprocess, Event.buildModel, Event.buildOptim,
       Event.raiseFileNotFound] :=
  ⟨rfl, rfl, checkpoint_error_before_training argsLoadMissing (fun _ => false) 0
    "model.ckpt" rfl rfl⟩

/-- C6 counterexample: resuming at starting epoch e0 = 5 with epochs = 6, epoch
5 is both the starting epoch and the final epoch, and the loop does persist a
checkpoint there — contradicting that a checkpoint is never persisted at the
starting epoch of the loop. -/
theorem checkpoint_saved_at_starting_epoch :
    Event.saveCkpt 5 ∈ trainingTrace 5 6 1000 := by decide

/-- C6 amended: over a run from starting epoch e0 to final epoch E - 1, a
checkpoint is persisted at epoch i exactly when i lies in [e0, E) and either i
is a multiple of the checkpoint interval other than e0, or i is the final
epoch E - 1; in particular the starting epoch is checkpointed exactly when it
is also the final epoch. -/
theorem checkpoint_schedule (e0 E interval i : ℕ) :
    Event.saveCkpt i ∈ trainingTrace e0 E interval ↔
      (e0 ≤ i ∧ i < E ∧ ((i ≠ e0 ∧ interval ∣ i) ∨ i = E - 1)) := by
  have hdvd : interval ∣ i ↔ i % interval = 0 := Nat.dvd_iff_mod_eq_zero
  rw [trainingTrace, List.mem_flatMap]
  constructor
  · rintro ⟨j, hj, hmem⟩
    rw [List.mem_range'_1] at hj
    rw [epochEvents] at hmem
    simp only [List.mem_append, List.mem_singleton] at hmem
    rcases hmem with (hmem | hmem) | hmem
    · split_ifs at hmem <;> simp_all
    · simp at hmem
    · split_ifs at hmem with hc
      · simp only [List.mem_singleton, Event.saveCkpt.injEq] at hmem
        subst hmem
        refine ⟨hj.1, by omega, ?_⟩
        rcases hc with ⟨hne, hmod⟩ | hfin
        · exact Or.inl ⟨hne, hdvd.mpr hmod⟩
        · exact Or.inr hfin
      · simp at hmem
  · rintro ⟨h1, h2, h3⟩
    refine ⟨i, ?_, ?_⟩
    · rw [List.mem_range'_1]; omega
    · rw [epochEvents]
      simp only [List.mem_append, List.mem_singleton]
      refine Or.inr ?_
      rw [if_pos]
      · simp
      · rcases h3 with ⟨hne, hd⟩ | hfin
        · exact Or.inl ⟨hne, hdvd.mp hd⟩
        · exact Or.inr hfin

/-- C8: checkpoint round-trip — loading immediately after saving restores
exactly the saved record (epoch, loss, model parameters, optimizer state), so
any deterministic continuation behaves identically to one started from the
saved states directly. -/
theorem checkpoint_round_trip (M O L α : Type) (path : String) (epoch : ℕ)
    (loss : L) (modelState : M) (optimState : O) (store : CkptStore M O L)
    (cont : M × O × ℕ × L → α) :
    load_checkpoint M O L path
        (save_checkpoint M O L path epoch loss modelState optimState store) =
      some (modelState, optimState, epoch, loss) ∧
    (load_checkpoint M O L path
        (save_checkpoint M O L path epoch loss modelState optimState store)).map cont =
      some (cont (modelState, optimState, epoch, loss)) := by
  constructor <;> simp [load_checkpoint, save_checkpoint]

/-- Helper: mapping List.length over a mapIdx whose function appends one
element adds one to each row length. -/
theorem map_length_mapIdx_succ (f : ℕ → List ℕ → List ℕ)
    (hf : ∀ b row, (f b row).length = row.length + 1) (idx : List (List ℕ)) :
    (idx.mapIdx f).map List.length = idx.map (fun row => row.length + 1) := by
  induction idx generalizing f with
  | nil => rfl
  | cons r rs ih =>
      rw [List.mapIdx_cons, List.map_cons, List.map_cons, hf 0 r]
      rw [ih (fun i => f (i + 1)) (fun b row => hf (b + 1) row)]

/-- Helper: each iteration of generateFrom lengthens every row by one, so n
iterations lengthen every row by n. -/
theorem generateFrom_map_length (sample : ℕ → ℕ → List ℕ → ℕ) (t : ℕ)
    (idx : List (List ℕ)) (n : ℕ) :
    (generateFrom sample t idx n).map List.length =
      idx.map (fun row => row.length + n) := by
  induction n generalizing t idx with
  | zero => simp [generateFrom]
  | succ n ih =>
      rw [generateFrom, ih]
      have h1 : (generateStep (sample t) idx).map List.length =
          idx.map (fun row => row.length + 1) := by
        rw [generateStep]
        exact map_length_mapIdx_succ _ (fun b row => by simp) idx
      calc (generateStep (sample t) idx).map (fun row => row.length + n)
          = ((generateStep (sample t) idx).map List.length).map (fun m => m + n) := by
            rw [List.map_map]
            rfl
        _ = (idx.map (fun row => row.length + 1)).map (fun m => m + n) := by rw [h1]
        _ = idx.map (fun row => row.length + (n + 1)) := by
            rw [List.map_map]
            exact List.map_congr_left (fun r _ => by simp [Function.comp]; omega)

/-- C2: GPT.generate with max_new_tokens = N performs exactly N loop
iterations — each cropping the running context to its last SEQ_LEN tokens,
drawing one token per batch row and appending it — and returns a batch with
the same number of rows, each exactly N tokens longer: shape (B, T0 + N). -/
theorem generate_adds_exactly_n_tokens (sample : ℕ → ℕ → List ℕ → ℕ)
    (idx : List (List ℕ)) (T0 n : ℕ) (h : ∀ row ∈ idx, row.length = T0) :
    (generate sample idx n).length = idx.length ∧
    ∀ row ∈ generate sample idx n, row.length = T0 + n := by
  have hm := generateFrom_map_length sample 0 idx n
  rw [generate]
  constructor
  · have hlen := congrArg List.length hm
    simpa using hlen
  · intro row hr
    have hmem : row.length ∈ (generateFrom sample 0 idx n).map List.length :=
      List.mem_map_of_mem List.length hr
    rw [hm] at hmem
    obtain ⟨r, hrmem, heq⟩ := List.mem_map.mp hmem
    have heq2 : r.length + n = row.length := heq
    rw [h r hrmem] at heq2
    omega

/-- Witness for C2 at the one-row context of length 1, N = 2, and the sampler
that always draws token 0. -/
theorem generate_adds_exactly_n_tokens_witness :
    (∀ row ∈ zeroContext, row.length = 1) ∧
    ((generate sampleZero zeroContext 2).length = zeroContext.length ∧
      ∀ row ∈ generate sampleZero zeroContext 2, row.length = 1 + 2) :=
  ⟨by decide, generate_adds_exactly_n_tokens sampleZero zeroContext 1 2 (by decide)⟩

/-- C7 (evidence of the code bug): the generation-only branch of main skips
the training loop entirely and generates from the zero-initialized
single-token context, but the value of the generate-length flag is ignored:
the call made is generate(300), so with flag value 5 every output row still
has 1 + 300 tokens rather than 1 + 5. -/
theorem generate_flag_ignored :
    (mainGenerateOutput sampleZero 5).map List.length = [301] ∧
    (301 : ℕ) ≠ 1 + 5 ∧
    mainTrace argsGen (fun _ => false) 0 =
      [Event.tokenize, Event.preprocess, Event.buildModel, Event.buildOptim,
       Event.generateOut] := by
  refine ⟨?_, by decide, by decide⟩
  have hm := generateFrom_map_length sampleZero 0 zeroContext 300
  rw [mainGenerateOutput, generate, hm]
  decide

/-- C3: get_batch draws the starting offsets from torch.randint with bound
len(data) - SEQ_LEN, whose support is exactly the set of offsets s for which a
window of SEQ_LEN + 1 tokens fits in the stream; for each drawn offset s the
input row agrees elementwise with stream[s:s+SEQ_LEN], the target row with
stream[s+1:s+1+SEQ_LEN], and every target token is the input token shifted one
position later. -/
theorem get_batch_windows (B : ℕ) (data : List ℕ) (ix : Fin B → ℕ) (b : Fin B)
    (hL : SEQ_LEN < data.length) (hix : ix b < randintHigh data.length) :
    (∀ s : ℕ, s < randintHigh data.length ↔ s + (SEQ_LEN + 1) ≤ data.length) ∧
    (∀ t : ℕ, t < SEQ_LEN → ((get_batch B data ix).1 b)[t]? = data[ix b + t]?) ∧
    (∀ t : ℕ, t < SEQ_LEN → ((get_batch B data ix).2 b)[t]? = data[ix b + 1 + t]?) ∧
    (∀ t : ℕ, t + 1 < SEQ_LEN →
      ((get_batch B data ix).2 b)[t]? = ((get_batch B data ix).1 b)[t + 1]?) := by
  refine ⟨?_, ?_, ?_, ?_⟩
  · intro s
    simp only [randintHigh]
    omega
  · intro t ht
    simp only [get_batch, inputWindow]
    rw [List.getElem?_take, if_pos ht, List.getElem?_drop]
  · intro t ht
    simp only [get_batch, targetWindow]
    rw [List.getElem?_take, if_pos ht, List.getElem?_drop]
  · intro t ht
    simp only [get_batch, inputWindow, targetWindow]
    rw [List.getElem?_take, if_pos (show t < SEQ_LEN by omega), List.getElem?_drop,
        List.getElem?_take, if_pos ht, List.getElem?_drop]
    congr 1
    omega

/-- Witness for C3 on the stream [0, ..., 299] with batch size 1, offset 0. -/
theorem get_batch_windows_witness :
    SEQ_LEN < (List.range 300).length ∧
    (0 : ℕ) < randintHigh (List.range 300).length ∧
    ((∀ s : ℕ, s < randintHigh (List.range 300).length ↔
        s + (SEQ_LEN + 1) ≤ (List.range 300).length) ∧
      (∀ t : ℕ, t < SEQ_LEN →
        ((get_batch 1 (List.range 300) (fun _ => 0)).1 0)[t]? =
          (List.range 300)[0 + t]?) ∧
      (∀ t : ℕ, t < SEQ_LEN →
        ((get_batch 1 (List.range 300) (fun _ => 0)).2 0)[t]? =
          (List.range 300)[0 + 1 + t]?) ∧
      (∀ t : ℕ, t + 1 < SEQ_LEN →
        ((get_batch 1 (List.range 300) (fun _ => 0)).2 0)[t]? =
          ((get_batch 1 (List.range 300) (fun _ => 0)).1 0)[t + 1]?)) := by
  have h1 : SEQ_LEN < (List.range 300).length := by norm_num [SEQ_LEN]
  have h2 : (0 : ℕ) < randintHigh (List.range 300).length := by
    norm_num [randintHigh, SEQ_LEN]
  exact ⟨h1, h2, get_batch_windows 1 (List.range 300) (fun _ => 0) 0 h1 h2⟩

/-- Helper: optional indexing commutes with mapIdx. -/
theorem getElem_opt_mapIdx (α β : Type) (f : ℕ → α → β) (l : List α) (b : ℕ) :
    (l.mapIdx f)[b]? = (l[b]?).map (f b) := by
  induction l generalizing f b with
  | nil => simp
  | cons a t ih =>
      cases b with
      | zero => simp [List.mapIdx_cons]
      | succ b =>
          simp only [List.mapIdx_cons, List.getElem?_cons_succ]
          exact ih _ b

/-- Helper: generateS leaves the parameter component untouched and each result
row is the corresponding input row with some tokens appended. -/
theorem generateS_rows (P : Type) (draw : P → ℕ → ℕ → List ℕ → ℕ)
    (st : TorchState P) (idx : List (List ℕ)) (n : ℕ) :
    (generateS P draw n st idx).2.params = st.params ∧
    ∀ b : ℕ, ∃ ext : List ℕ,
      ((generateS P draw n st idx).1)[b]? = (idx[b]?).map (fun row => row ++ ext) := by
  induction n generalizing st idx with
  | zero =>
      refine ⟨rfl, fun b => ⟨[], ?_⟩⟩
      simp [generateS]
  | succ n ih =>
      obtain ⟨h1, h2⟩ := ih (generateStepS P draw st idx).2 (generateStepS P draw st idx).1
      constructor
      · rw [generateS]
        exact h1
      · intro b
        obtain ⟨ext, hext⟩ := h2 b
        have hstep : ((generateStepS P draw st idx).1)[b]? =
            (idx[b]?).map (fun row => row ++ [draw st.params st.rng b (cropRow row)]) :=
          getElem_opt_mapIdx _ _ _ idx b
        rw [hstep] at hext
        cases hrow : idx[b]? with
        | none =>
            refine ⟨ext, ?_⟩
            rw [generateS, hext, hrow]
            simp
        | some row0 =>
            refine ⟨[draw st.params st.rng b (cropRow row0)] ++ ext, ?_⟩
            rw [generateS, hext, hrow]
            simp

/-- C10: GPT.generate never mutates model state: the parameter component of
the engine state (embedding tables, every linear and normalization weight and
bias, and the registered tril buffer) is identical before and after the call —
only the RNG component may advance — and the extended sequence is a newly
built tensor each of whose rows begins with the unmodified input context row. -/
theorem generate_preserves_model_state (P : Type) (draw : P → ℕ → ℕ → List ℕ → ℕ)
    (st : TorchState P) (idx : List (List ℕ)) (n : ℕ) :
    (generateS P draw n st idx).2.params = st.params ∧
    ∀ b : ℕ, ((generateS P draw n st idx).1[b]?).map
        (fun row => row.take ((idx[b]?.getD []).length)) = idx[b]? := by
  obtain ⟨h1, h2⟩ := generateS_rows P draw st idx n
  refine ⟨h1, fun b => ?_⟩
  obtain ⟨ext, hext⟩ := h2 b
  rw [hext]
  cases hrow : idx[b]? with
  | none => simp
  | some row0 => simp [List.take_left]

end GptSpec
